import Mathlib

/-!
Shallow embedding of the Keycloak session manager in
`src/src/authenticator.ts` (classes `TokenHolder`,
`KeycloakAuthenticatorImpl` and `AuthenticatorImpl`).

The external collaborators (RNKeycloak, axios, InAppBrowser, jwt-decode)
are modelled at the boundary: the outcome that each external promise
delivers to the code under study is an explicit oracle argument, and the
code's reaction to it is translated line by line.  JavaScript exceptions
and promise rejections are modelled as explicit result values; a promise
that is neither resolved nor rejected is modelled as `pending`.
-/

/-- Decoded JWT payload fields that `AuthenticatorImpl.getUserInformation`
reads from `tokenHolder.parsedToken`.  Absent JSON fields are `none`. -/
structure Claims where
  preferred_username : Option String := none
  email : Option String := none
  given_name : Option String := none
  family_name : Option String := none
  realm_access_roles : Option (List String) := none
deriving Repr, DecidableEq

/-- The record returned by `AuthenticatorImpl.getUserInformation`. -/
structure UserInformation where
  username : Option String
  email : Option String
  firstName : Option String
  lastName : Option String
  roles : List String
deriving Repr, DecidableEq

/-- The mutable `TokenHolder` of `src/src/authenticator.ts` (lines 42-58):
`token`, `refreshToken` and `parsedToken`, each possibly `undefined`. -/
structure TokenHolder where
  token : Option String := none
  refreshToken : Option String := none
  parsedToken : Option Claims := none
deriving Repr, DecidableEq

/-- JavaScript truthiness of a possibly-undefined string: `undefined` and
the empty string are falsy. -/
def jsTruthy : Option String → Bool
  | none => false
  | some s => !(s == "")

/-- JavaScript `string.split('.')` over the character list: splitting an
empty string yields `[""]`, a trailing dot yields a trailing empty piece. -/
def splitOnDot : List Char → List (List Char)
  | [] => [[]]
  | c :: cs =>
    match splitOnDot cs with
    | r :: rs => if c = '.' then [] :: r :: rs else (c :: r) :: rs
    | [] => if c = '.' then [[], []] else [[c]]

/-- `token.split(".")[1]` — the payload part the external `jwt-decode`
library extracts; `none` when the part is missing (split yields fewer
than two pieces), in which case `jwt-decode` throws. -/
def jwtPart1 (token : String) : Option String :=
  match splitOnDot token.data with
  | _ :: p :: _ => some (String.mk p)
  | _ => none

/-- Models the external `jwt-decode` library used at line 50: take the
second dot-separated part of the token and decode it (base64url +
JSON.parse, abstracted as the oracle `pp`).  A `none` result models the
`InvalidTokenError` exception the library throws on malformed input. -/
def jwtDecode (pp : String → Option Claims) (token : String) : Option Claims :=
  match jwtPart1 token with
  | none => none
  | some part => pp part

/-- `TokenHolder.setToken` (lines 47-51): assigns `token` and
`refreshToken`, then `parsedToken = jwtDecode(token)`.  When `jwtDecode`
throws, the first two assignments have already happened and `parsedToken`
keeps its previous value; the `Bool` is `true` iff the method returned
normally (no exception). -/
def TokenHolder.setToken (pp : String → Option Claims) (h : TokenHolder)
    (t rt : String) : TokenHolder × Bool :=
  match jwtDecode pp t with
  | some c => ({ token := some t, refreshToken := some rt, parsedToken := some c }, true)
  | none => ({ h with token := some t, refreshToken := some rt }, false)

/-- `TokenHolder.clearToken` (lines 53-57): all three fields set to
`undefined`. -/
def TokenHolder.clearToken (_h : TokenHolder) : TokenHolder := {}

/-- The bookkeeping roles excluded in `getUserInformation` (lines 247-250). -/
def defaultRoles : List String := ["uma_authorization", "offline_access"]

/-- `AuthenticatorImpl.getUserInformation` (lines 245-263): when a parsed
token is held, copy the identity fields and filter
`realm_access?.roles || []` by the role filter; otherwise `undefined`. -/
def getUserInformation (h : TokenHolder) : Option UserInformation :=
  match h.parsedToken with
  | some c =>
    some { username := c.preferred_username
           email := c.email
           firstName := c.given_name
           lastName := c.family_name
           roles := (c.realm_access_roles.getD []).filter
             (fun role => !(defaultRoles.contains role) && !(role.startsWith "default-roles")) }
  | none => none

/-- The `keycloak.token` / `keycloak.refreshToken` fields of the external
RNKeycloak instance, as observed by the code after an external promise
settles. -/
structure KeycloakState where
  token : Option String := none
  refreshToken : Option String := none
deriving Repr, DecidableEq

/-- Settlement of the external `keycloak.updateToken(...)` promise, as
observed by one `refreshToken` invocation: either it resolves with the
`refreshed` flag (together with the keycloak token fields at that moment),
or it rejects with an error. -/
inductive UpdateTokenResult where
  | resolvedR (refreshed : Bool) (kc : KeycloakState)
  | rejectedU (msg : String)
deriving Repr, DecidableEq

/-- Errors that surface through the embedded promise chains. -/
inductive JsError where
  | axios (status : Nat) (tag : String)
  | provider (msg : String)
  | decode (token : String)
  | str (s : String)
deriving Repr, DecidableEq

/-- Settlement state of a JavaScript promise: resolved, rejected, or
never settled. -/
inductive PromiseResult (α : Type) where
  | resolved (a : α)
  | rejected (e : JsError)
  | pending
deriving Repr, DecidableEq

/-- Result of one `AuthenticatorImpl.refreshToken` invocation: the token
holder afterwards, the settlement of the promise the caller receives, and
the number of `keycloak.updateToken` (provider refresh) calls issued. -/
structure RefreshStepResult where
  holder : TokenHolder
  outcome : PromiseResult String
  providerCalls : Nat
deriving Repr, DecidableEq

/-- `AuthenticatorImpl.refreshToken` (lines 195-212).  The promise
executor runs synchronously and its first and only provider interaction
is the single `keycloak.updateToken(this.minTokenValidity)` call — no
field of the authenticator or of the token holder is consulted before
issuing it, so every invocation contributes exactly one provider call.
Reaction to the settlement `u`:
on rejection, reject with the same error (holder untouched — there is no
`clearToken` on this path); on resolution with `refreshed = true` and
truthy keycloak token fields, `setToken` then resolve with the new token
(a `jwtDecode` throw inside the `then` callback is caught by the trailing
`catch`, which rejects); in every remaining case (`refreshed = false`, or
falsy keycloak fields) neither `resolve` nor `reject` is ever called. -/
def refreshTokenStep (pp : String → Option Claims) (u : UpdateTokenResult)
    (h : TokenHolder) : RefreshStepResult :=
  match u with
  | .rejectedU msg => { holder := h, outcome := .rejected (.provider msg), providerCalls := 1 }
  | .resolvedR refreshed kc =>
    if refreshed then
      match kc.token, kc.refreshToken with
      | some t, some rt =>
        if !(t == "") && !(rt == "") then
          match TokenHolder.setToken pp h t rt with
          | (h2, true) => { holder := h2, outcome := .resolved t, providerCalls := 1 }
          | (h2, false) => { holder := h2, outcome := .rejected (.decode t), providerCalls := 1 }
        else { holder := h, outcome := .pending, providerCalls := 1 }
      | _, _ => { holder := h, outcome := .pending, providerCalls := 1 }
    else { holder := h, outcome := .pending, providerCalls := 1 }

/-- Total number of `keycloak.updateToken` calls issued by a set of
`refreshToken` invocations made concurrently against the same holder
(JavaScript runs each executor synchronously at call time, before any
settlement callback runs, so each invocation sees the holder as it was
and issues its own provider call); `us` lists the settlement each
invocation later observes. -/
def concurrentRefreshProviderCalls (pp : String → Option Claims)
    (us : List UpdateTokenResult) (h : TokenHolder) : Nat :=
  (us.map (fun u => (refreshTokenStep pp u h).providerCalls)).sum

/-- The request interceptor installed by `addInterceptor` (lines 119-127):
the `Authorization` header value attached to an outbound request, `none`
when the held token is falsy. -/
def requestInterceptorHeader (h : TokenHolder) : Option String :=
  match h.token with
  | some t => if !(t == "") then some ("Bearer " ++ t) else none
  | none => none

/-- What the transport delivers for one submission of the request: a
successful response, or an error with a status code handed to the
response interceptor's failure branch. -/
inductive SubmissionResult where
  | ok
  | err (status : Nat) (tag : String)
deriving Repr, DecidableEq

/-- Settlement of the promise an axios caller receives for one logical
request, including the interceptor's rewriting: `undef` models the
interceptor returning `undefined` (its promise resolves with no
response) when no authenticator exists yet. -/
inductive ReqOutcome where
  | ok
  | undef
  | err (e : JsError)
  | pending
deriving Repr, DecidableEq

/-- Outcome of driving one logical request through the response
interceptor until it settles. -/
structure RunResult where
  outcome : ReqOutcome
  refreshes : Nat
  holder : TokenHolder
deriving Repr, DecidableEq

/-- One logical request driven through the response interceptor of
`addResponseInterceptor` (lines 129-141).  `subs` lists what the
transport delivers for each successive submission of the request, `us`
the settlement observed by each successive `refreshToken` invocation.
On a 401 error the interceptor returns
`authenticator?.refreshToken(holder).then(() => axios.request(error.config))`:
if no authenticator exists the optional chain yields `undefined` and the
promise resolves with it; if the refresh rejects, that rejection (not the
original 401) is the result; if the refresh resolves, the request is
re-submitted through `axios.request`, which passes through the same
interceptors again; if the refresh never settles the caller waits
forever.  A non-401 error is re-rejected unchanged. -/
def runRequest (pp : String → Option Claims) (authPresent : Bool) :
    List SubmissionResult → List UpdateTokenResult → TokenHolder → RunResult
  | [], _, h => { outcome := .pending, refreshes := 0, holder := h }
  | .ok :: _, _, h => { outcome := .ok, refreshes := 0, holder := h }
  | .err s tag :: rest, us, h =>
    if s = 401 then
      if authPresent then
        match us with
        | [] => { outcome := .pending, refreshes := 1, holder := h }
        | u :: us2 =>
          let r := refreshTokenStep pp u h
          match r.outcome with
          | .resolved _ =>
            let k := runRequest pp authPresent rest us2 r.holder
            { outcome := k.outcome, refreshes := k.refreshes + 1, holder := k.holder }
          | .rejected e => { outcome := .err e, refreshes := 1, holder := r.holder }
          | .pending => { outcome := .pending, refreshes := 1, holder := r.holder }
      else { outcome := .undef, refreshes := 0, holder := h }
    else { outcome := .err (.axios s tag), refreshes := 0, holder := h }

/-- Result of the synchronous entry of
`KeycloakAuthenticatorImpl.authenticate` (lines 90-96) composed with the
redirect-URI guard of `AuthenticatorImpl.authenticate` (lines 162-165):
an immediate rejection message if any guard fires, the holder afterwards,
and whether the keycloak login flow (`keycloak.init`/`login`) is
started. -/
structure AuthEntryResult where
  rejection : Option String
  holder : TokenHolder
  providerInvoked : Bool
deriving Repr, DecidableEq

/-- `KeycloakAuthenticatorImpl.authenticate`: when the holder already has
a truthy token, reject with the string `Authenticated already` before
constructing an `AuthenticatorImpl` — no state change and no keycloak
call.  Otherwise delegate; `AuthenticatorImpl.authenticate` then rejects
when no redirect URI is given, and only past that guard does it call
`keycloak.init`. -/
def authenticateEntry (h : TokenHolder) (redirectUri : Option String) : AuthEntryResult :=
  if jsTruthy h.token then
    { rejection := some "Authenticated already", holder := h, providerInvoked := false }
  else if !(jsTruthy redirectUri) then
    { rejection := some "Redirect URI is required for native environment",
      holder := h, providerInvoked := false }
  else
    { rejection := none, holder := h, providerInvoked := true }

/-- Settlement of the external `InAppBrowser.open(updatedLogoutUrl)`
promise inside `AuthenticatorImpl.logout`. -/
inductive BrowserResult where
  | opened
  | failed (msg : String)
deriving Repr, DecidableEq

/-- `AuthenticatorImpl.logout` (lines 221-237): after building the logout
URL, open the browser; on success clear the token holder and resolve
`true`; on failure clear the token holder as well and reject with the
browser error. -/
def logoutStep (br : BrowserResult) (h : TokenHolder) : TokenHolder × PromiseResult Bool :=
  match br with
  | .opened => (h.clearToken, .resolved true)
  | .failed msg => (h.clearToken, .rejected (.str msg))

example : jwtDecode (fun _ => some {}) "x" = none := by decide
example : jwtDecode (fun _ => some {}) "a.b.c" = some {} := by decide
example : (TokenHolder.setToken (fun _ => some {}) {} "x" "r")
    = ({ token := some "x", refreshToken := some "r", parsedToken := none }, false) := by decide
example : getUserInformation
    { parsedToken := some { realm_access_roles := some ["admin", "uma_authorization"] } }
    = some { username := none, email := none, firstName := none, lastName := none,
             roles := ["admin"] } := by decide


/-! Shared concrete inputs for witnesses and counterexamples. -/

/-- A payload decoder that accepts every payload: failures exhibited with
it are forced purely by the token's dot structure, not by the abstracted
base64url/JSON step. -/
def anyPayload : String → Option Claims := fun _ => some {}

/-- A token holder as left by a successful login with token `a.b.c`. -/
def authedHolder : TokenHolder :=
  { token := some "a.b.c", refreshToken := some "r", parsedToken := some {} }

/-- An `updateToken` settlement in which the provider refreshed the token
pair and the keycloak fields hold the new credentials. -/
def refreshOkObs : UpdateTokenResult :=
  .resolvedR true { token := some "a.b2.c", refreshToken := some "r2" }

/-- The spec's TokenState invariant over the embedded holder: whenever a
non-empty access token is held, claims decoded from that same token are
held with it. -/
def holderInvariant (pp : String → Option Claims) (h : TokenHolder) : Prop :=
  ∀ t, h.token = some t → ¬(t = "") →
    ∃ c, h.parsedToken = some c ∧ jwtDecode pp t = some c

/-! Helper lemmas. -/

/-- Every `refreshToken` invocation issues exactly one
`keycloak.updateToken` call, whatever it later observes. -/
theorem refreshTokenStep_providerCalls (pp : String → Option Claims)
    (u : UpdateTokenResult) (h : TokenHolder) :
    (refreshTokenStep pp u h).providerCalls = 1 := by
  cases u with
  | rejectedU msg => rfl
  | resolvedR refreshed kc =>
    simp only [refreshTokenStep]
    repeat' split
    all_goals rfl

/-- `setToken` assigns the access token unconditionally, before decoding. -/
theorem setToken_fst_token (pp : String → Option Claims) (h : TokenHolder)
    (t rt : String) : (TokenHolder.setToken pp h t rt).1.token = some t := by
  unfold TokenHolder.setToken
  cases hd : jwtDecode pp t <;> simp [hd]

/-- When a `refreshToken` invocation resolves with token `tk`, the holder
afterwards holds exactly that (non-empty) token. -/
theorem refreshTokenStep_resolved_token (pp : String → Option Claims)
    (u : UpdateTokenResult) (h : TokenHolder) (tk : String)
    (hres : (refreshTokenStep pp u h).outcome = .resolved tk) :
    (refreshTokenStep pp u h).holder.token = some tk ∧ ¬(tk = "") := by
  cases u with
  | rejectedU msg => simp [refreshTokenStep] at hres
  | resolvedR refreshed kc =>
    revert hres
    simp only [refreshTokenStep]
    split
    · split
      · rename_i t rt hkt hkr
        split
        · rename_i htr
          split
          · rename_i h2 hset
            intro hres
            injection hres with htk
            subst htk
            refine ⟨?_, ?_⟩
            · have hst := setToken_fst_token pp h t rt
              rw [hset] at hst
              exact hst
            · simp only [Bool.and_eq_true, Bool.not_eq_true'] at htr
              simpa using htr.1
          · intro hres; simp at hres
        · intro hres; simp at hres
      · intro hres; simp at hres
    · intro hres; simp at hres

/-! Claim theorems. -/

/-- Claim C1, counterexample: two refresh() invocations issued
concurrently against the same authenticated session make two provider
updateToken calls, not at most one, and the two callers can observe
different outcomes. -/
theorem refresh_single_flight_cex :
    concurrentRefreshProviderCalls anyPayload
      [.rejectedU "session_expired", refreshOkObs] authedHolder = 2 ∧
    ¬ (concurrentRefreshProviderCalls anyPayload
        [.rejectedU "session_expired", refreshOkObs] authedHolder ≤ 1) ∧
    (refreshTokenStep anyPayload (.rejectedU "session_expired") authedHolder).outcome
      ≠ (refreshTokenStep anyPayload refreshOkObs authedHolder).outcome := by
  decide

/-- Claim C1 (amended): the refresh path is not single-flight — every
concurrent refresh() invocation issues its own provider updateToken call,
so n concurrent invocations reach the provider n times, each caller's
outcome being determined by its own call's settlement. -/
theorem refresh_provider_calls_eq_num_callers (pp : String → Option Claims)
    (us : List UpdateTokenResult) (h : TokenHolder) :
    concurrentRefreshProviderCalls pp us h = us.length := by
  unfold concurrentRefreshProviderCalls
  induction us with
  | nil => rfl
  | cons u us ih =>
    rw [List.map_cons, List.sum_cons, refreshTokenStep_providerCalls, ih,
      List.length_cons]
    omega

/-- Claim C2, counterexample: a request that receives 401, is retried
after a successful refresh, and receives 401 again triggers a second
refresh — the retried request passes through the same response
interceptor, so refreshes are not bounded to one per original request. -/
theorem interceptor_second_401_refresh_cex :
    (runRequest anyPayload true [.err 401 "first", .err 401 "second", .ok]
      [refreshOkObs, .resolvedR true { token := some "a.b3.c", refreshToken := some "r3" }]
      authedHolder).refreshes = 2 ∧
    ¬ ((runRequest anyPayload true [.err 401 "first", .err 401 "second", .ok]
      [refreshOkObs, .resolvedR true { token := some "a.b3.c", refreshToken := some "r3" }]
      authedHolder).refreshes ≤ 1) := by
  decide

/-- Claim C2 (amended): on a 401 response the interceptor triggers exactly
one refresh and, when that refresh succeeds, resubmits the original
request exactly once with the new token attached; the resubmission passes
through the same interceptor again, so a further 401 on it triggers a
further refresh the same way (there is no retry bound). -/
theorem interceptor_401_refresh_then_retry (pp : String → Option Claims)
    (u : UpdateTokenResult) (h : TokenHolder) (tk tag : String)
    (rest : List SubmissionResult) (us2 : List UpdateTokenResult)
    (hres : (refreshTokenStep pp u h).outcome = .resolved tk) :
    runRequest pp true (.err 401 tag :: rest) (u :: us2) h =
      { outcome := (runRequest pp true rest us2 (refreshTokenStep pp u h).holder).outcome,
        refreshes := (runRequest pp true rest us2 (refreshTokenStep pp u h).holder).refreshes + 1,
        holder := (runRequest pp true rest us2 (refreshTokenStep pp u h).holder).holder } ∧
    requestInterceptorHeader (refreshTokenStep pp u h).holder = some ("Bearer " ++ tk) := by
  constructor
  · simp only [runRequest]
    rw [hres]
    simp
  · obtain ⟨ht, hne⟩ := refreshTokenStep_resolved_token pp u h tk hres
    unfold requestInterceptorHeader
    rw [ht]
    simp [hne]

/-- Witness for the amended C2 theorem at a concrete 401 trace. -/
theorem interceptor_401_refresh_then_retry_witness :
    (refreshTokenStep anyPayload refreshOkObs authedHolder).outcome = .resolved "a.b2.c" ∧
    (runRequest anyPayload true (.err 401 "w2" :: [.ok]) (refreshOkObs :: []) authedHolder =
      { outcome := (runRequest anyPayload true [.ok] []
          (refreshTokenStep anyPayload refreshOkObs authedHolder).holder).outcome,
        refreshes := (runRequest anyPayload true [.ok] []
          (refreshTokenStep anyPayload refreshOkObs authedHolder).holder).refreshes + 1,
        holder := (runRequest anyPayload true [.ok] []
          (refreshTokenStep anyPayload refreshOkObs authedHolder).holder).holder } ∧
     requestInterceptorHeader (refreshTokenStep anyPayload refreshOkObs authedHolder).holder =
       some ("Bearer " ++ "a.b2.c")) :=
  ⟨by decide,
   interceptor_401_refresh_then_retry anyPayload refreshOkObs authedHolder
     "a.b2.c" "w2" [.ok] [] (by decide)⟩

/-- Claim C3, counterexample: after a failed refresh the token holder is
unchanged — the old token is still held, not cleared — and a subsequent
authenticate() rejects with the string `Authenticated already` instead of
being able to succeed. -/
theorem refresh_failure_state_cex :
    (refreshTokenStep anyPayload (.rejectedU "refresh_failed") authedHolder).holder
      = authedHolder ∧
    (refreshTokenStep anyPayload (.rejectedU "refresh_failed") authedHolder).holder.token
      ≠ none ∧
    (authenticateEntry (refreshTokenStep anyPayload (.rejectedU "refresh_failed")
        authedHolder).holder (some "app://cb")).rejection = some "Authenticated already" := by
  decide

/-- Claim C3 (amended): when refresh() fails, the rejection is propagated
to the caller, but the TokenHolder is not cleared — the old token stays
held, so a subsequent authenticate() rejects with `Authenticated already`
rather than succeeding. -/
theorem refresh_failure_keeps_token (pp : String → Option Claims)
    (h : TokenHolder) (msg : String) (uri : Option String)
    (htok : jsTruthy h.token = true) :
    (refreshTokenStep pp (.rejectedU msg) h).holder = h ∧
    (refreshTokenStep pp (.rejectedU msg) h).outcome = .rejected (.provider msg) ∧
    authenticateEntry (refreshTokenStep pp (.rejectedU msg) h).holder uri =
      { rejection := some "Authenticated already", holder := h,
        providerInvoked := false } := by
  refine ⟨rfl, rfl, ?_⟩
  show authenticateEntry h uri = _
  unfold authenticateEntry
  rw [htok]
  simp

/-- Witness for the amended C3 theorem on an authenticated holder. -/
theorem refresh_failure_keeps_token_witness :
    jsTruthy authedHolder.token = true ∧
    ((refreshTokenStep anyPayload (.rejectedU "grant_expired") authedHolder).holder
        = authedHolder ∧
     (refreshTokenStep anyPayload (.rejectedU "grant_expired") authedHolder).outcome
        = .rejected (.provider "grant_expired") ∧
     authenticateEntry (refreshTokenStep anyPayload (.rejectedU "grant_expired")
         authedHolder).holder (some "app://cb2") =
       { rejection := some "Authenticated already", holder := authedHolder,
         providerInvoked := false }) :=
  ⟨by decide,
   refresh_failure_keeps_token anyPayload authedHolder "grant_expired"
     (some "app://cb2") (by decide)⟩

/-- Claim C4: every logout() run clears the locally held token, refresh
token and decoded claims, whether or not the remote browser logout
interaction succeeds; when it fails, the browser error is still rejected
to the caller. -/
theorem logout_clears_locally_and_reports (br : BrowserResult) (h : TokenHolder) :
    ((logoutStep br h).1.token = none ∧ (logoutStep br h).1.refreshToken = none ∧
      (logoutStep br h).1.parsedToken = none) ∧
    (∀ msg, br = .failed msg → (logoutStep br h).2 = .rejected (.str msg)) := by
  cases br with
  | opened =>
    refine ⟨⟨rfl, rfl, rfl⟩, ?_⟩
    intro msg hmsg
    simp at hmsg
  | failed m =>
    refine ⟨⟨rfl, rfl, rfl⟩, ?_⟩
    intro msg hmsg
    injection hmsg with hm
    subst hm
    rfl

/-- Witness for the C4 theorem on a failing remote logout. -/
theorem logout_clears_locally_and_reports_witness :
    (((logoutStep (.failed "browser_error") authedHolder).1.token = none ∧
      (logoutStep (.failed "browser_error") authedHolder).1.refreshToken = none ∧
      (logoutStep (.failed "browser_error") authedHolder).1.parsedToken = none)) ∧
    (logoutStep (.failed "browser_error") authedHolder).2 =
      .rejected (.str "browser_error") :=
  ⟨(logout_clears_locally_and_reports (.failed "browser_error") authedHolder).1,
   (logout_clears_locally_and_reports (.failed "browser_error") authedHolder).2
     "browser_error" rfl⟩

/-- Claim C5, counterexample: on the malformed token `x` the decode step
throws even with an infallible payload parser (the returned flag `false`
models the uncaught `InvalidTokenError`), and the malformed token has
nevertheless been installed in the holder, because `setToken` assigns
`token` and `refreshToken` before decoding. -/
theorem decode_malformed_throws_cex :
    jwtDecode anyPayload "x" = none ∧
    TokenHolder.setToken anyPayload {} "x" "r" =
      ({ token := some "x", refreshToken := some "r", parsedToken := none }, false) := by
  decide

/-- Claim C5 (amended): decoding a malformed token is an exception, not a
returned error value: `setToken` propagates the `jwt-decode` throw, and
since `token` and `refreshToken` are assigned before decoding, the
malformed token pair remains installed while `parsedToken` keeps its
previous value. -/
theorem setToken_malformed_partial_install (pp : String → Option Claims)
    (h : TokenHolder) (t rt : String) (hmal : jwtDecode pp t = none) :
    TokenHolder.setToken pp h t rt =
      ({ token := some t, refreshToken := some rt, parsedToken := h.parsedToken }, false) := by
  unfold TokenHolder.setToken
  rw [hmal]

/-- Witness for the amended C5 theorem on the malformed token `mal`. -/
theorem setToken_malformed_partial_install_witness :
    jwtDecode anyPayload "mal" = none ∧
    TokenHolder.setToken anyPayload authedHolder "mal" "r9" =
      ({ token := some "mal", refreshToken := some "r9",
         parsedToken := authedHolder.parsedToken }, false) :=
  ⟨by decide,
   setToken_malformed_partial_install anyPayload authedHolder "mal" "r9" (by decide)⟩

/-- Claim C6: every role exposed through `getUserInformation` is neither
`uma_authorization` nor `offline_access` nor a role whose name starts
with `default-roles` — the filter is applied to whatever roles the
decoded token carries. -/
theorem userInformation_roles_exclude_bookkeeping (h : TokenHolder)
    (ui : UserInformation) (r : String)
    (hui : getUserInformation h = some ui) (hr : r ∈ ui.roles) :
    r ≠ "uma_authorization" ∧ r ≠ "offline_access" ∧
      r.startsWith "default-roles" = false := by
  unfold getUserInformation at hui
  cases hp : h.parsedToken with
  | none => rw [hp] at hui; cases hui
  | some c =>
    rw [hp] at hui
    simp only [Option.some.injEq] at hui
    subst hui
    replace hr : r ∈ (c.realm_access_roles.getD []).filter
        (fun role => !(defaultRoles.contains role) &&
          !(role.startsWith "default-roles")) := hr
    rw [List.mem_filter] at hr
    have hpred := hr.2
    simp only [Bool.and_eq_true, Bool.not_eq_true'] at hpred
    obtain ⟨hcont, hstart⟩ := hpred
    refine ⟨?_, ?_, hstart⟩
    · intro hrq; subst hrq; exact absurd hcont (by decide)
    · intro hrq; subst hrq; exact absurd hcont (by decide)

/-- Witness for the C6 theorem: the spec's scenario token with roles
`admin` and `uma_authorization` exposes exactly `admin`, and `admin`
survives the filter legitimately. -/
theorem userInformation_roles_exclude_bookkeeping_witness :
    getUserInformation
        { parsedToken := some { realm_access_roles := some ["admin", "uma_authorization"] } } =
      some { username := none, email := none, firstName := none, lastName := none,
             roles := ["admin"] } ∧
    ("admin" ≠ "uma_authorization" ∧ "admin" ≠ "offline_access" ∧
      "admin".startsWith "default-roles" = false) :=
  ⟨by decide,
   userInformation_roles_exclude_bookkeeping
     { parsedToken := some { realm_access_roles := some ["admin", "uma_authorization"] } }
     { username := none, email := none, firstName := none, lastName := none,
       roles := ["admin"] }
     "admin" (by decide) (by decide)⟩

/-- Claim C7: authenticate() on a session already holding a token rejects
with `Authenticated already`, leaves the holder unchanged and never
starts the keycloak login flow. -/
theorem authenticate_while_authenticated_rejects (h : TokenHolder)
    (uri : Option String) (htok : jsTruthy h.token = true) :
    authenticateEntry h uri =
      { rejection := some "Authenticated already", holder := h,
        providerInvoked := false } := by
  unfold authenticateEntry
  rw [htok]
  simp

/-- Witness for the C7 theorem on an authenticated holder. -/
theorem authenticate_while_authenticated_rejects_witness :
    jsTruthy authedHolder.token = true ∧
    authenticateEntry authedHolder (some "app://cb3") =
      { rejection := some "Authenticated already", holder := authedHolder,
        providerInvoked := false } :=
  ⟨by decide,
   authenticate_while_authenticated_rejects authedHolder (some "app://cb3") (by decide)⟩

/-- Claim C8, counterexample: when the refresh triggered by a 401 fails,
the caller receives the refresh failure, not the original 401 error. -/
theorem refresh_error_replaces_401_cex :
    (runRequest anyPayload true [.err 401 "orig"] [.rejectedU "invalid_grant"]
      authedHolder).outcome = .err (.provider "invalid_grant") ∧
    (runRequest anyPayload true [.err 401 "orig"] [.rejectedU "invalid_grant"]
      authedHolder).outcome ≠ .err (.axios 401 "orig") := by
  decide

/-- Claim C8 (amended): when the refresh triggered by a 401 fails, the
interceptor rejects with the refresh failure error, replacing the
original unauthorized error; every non-401 failure passes through the
interceptor unmodified, with no refresh triggered. -/
theorem interceptor_error_propagation (pp : String → Option Claims)
    (h : TokenHolder) (msg tag : String) (s : Nat)
    (rest : List SubmissionResult) (us us2 : List UpdateTokenResult)
    (hs : s ≠ 401) :
    runRequest pp true (.err 401 tag :: rest) (.rejectedU msg :: us2) h =
      { outcome := .err (.provider msg), refreshes := 1, holder := h } ∧
    runRequest pp true (.err s tag :: rest) us h =
      { outcome := .err (.axios s tag), refreshes := 0, holder := h } := by
  constructor
  · rfl
  · simp only [runRequest]
    rw [if_neg hs]

/-- Witness for the amended C8 theorem with a failing refresh and a 500
response. -/
theorem interceptor_error_propagation_witness :
    (500 : Nat) ≠ 401 ∧
    (runRequest anyPayload true [.err 401 "w8"] [.rejectedU "invalid_grant2"] authedHolder =
      { outcome := .err (.provider "invalid_grant2"), refreshes := 1,
        holder := authedHolder } ∧
     runRequest anyPayload true [.err 500 "w8"] [] authedHolder =
      { outcome := .err (.axios 500 "w8"), refreshes := 0, holder := authedHolder }) :=
  ⟨by decide,
   interceptor_error_propagation anyPayload authedHolder "invalid_grant2" "w8" 500
     [] [] [] (by decide)⟩

/-- Claim C9, counterexample: running `setToken` on the malformed token
`x` (even with an infallible payload parser) leaves a holder whose access
token is set while no claims are held, violating the invariant — decoding
is synchronous but can abort after the token assignment. -/
theorem token_claims_invariant_cex :
    ¬ holderInvariant anyPayload (TokenHolder.setToken anyPayload {} "x" "r").1 := by
  intro hinv
  obtain ⟨c, hc, -⟩ := hinv "x" (by decide) (by decide)
  have hnone : (TokenHolder.setToken anyPayload {} "x" "r").1.parsedToken = none := by
    decide
  rw [hnone] at hc
  cases hc

/-- Claim C9 (amended): the invariant — a held non-empty access token
comes with claims decoded from that same token — is preserved by every
`clearToken` and by every `setToken` that completes without the decode
throwing; only a throwing `setToken` leaves a violating partial state. -/
theorem completed_ops_preserve_invariant (pp : String → Option Claims)
    (h : TokenHolder) (t rt : String)
    (hok : (TokenHolder.setToken pp h t rt).2 = true) :
    holderInvariant pp (TokenHolder.setToken pp h t rt).1 ∧
    holderInvariant pp (TokenHolder.clearToken h) := by
  constructor
  · unfold TokenHolder.setToken at hok ⊢
    cases hd : jwtDecode pp t with
    | none => rw [hd] at hok; simp at hok
    | some c =>
      intro t' ht' hne
      injection ht' with htt
      subst htt
      exact ⟨c, rfl, hd⟩
  · intro t' ht' hne
    simp [TokenHolder.clearToken] at ht'

/-- Witness for the amended C9 theorem on a decodable token. -/
theorem completed_ops_preserve_invariant_witness :
    (TokenHolder.setToken anyPayload {} "a.b.c" "r").2 = true ∧
    (holderInvariant anyPayload (TokenHolder.setToken anyPayload {} "a.b.c" "r").1 ∧
     holderInvariant anyPayload (TokenHolder.clearToken {})) :=
  ⟨by decide,
   completed_ops_preserve_invariant anyPayload {} "a.b.c" "r" (by decide)⟩

/-- Claim C10: when `updateToken` resolves reporting the token was not
refreshed (still valid), `refreshToken` neither resolves nor rejects: its
promise stays pending, the holder is untouched, and a 401 interceptor
caller awaiting the refresh before retrying never receives an outcome. -/
theorem refresh_still_valid_never_settles (pp : String → Option Claims)
    (kc : KeycloakState) (h : TokenHolder) (tag : String)
    (rest : List SubmissionResult) (us2 : List UpdateTokenResult) :
    refreshTokenStep pp (.resolvedR false kc) h =
      { holder := h, outcome := .pending, providerCalls := 1 } ∧
    runRequest pp true (.err 401 tag :: rest) (.resolvedR false kc :: us2) h =
      { outcome := .pending, refreshes := 1, holder := h } :=
  ⟨rfl, rfl⟩
